import Mathlib

/-!
Shallow embedding of the reminder delivery subsystem of the
ai-life-companion repository (src/api/app/tasks/reminders.py,
src/api/app/db/models.py, src/api/app/services/feature_flags.py).

Times are modelled as integer seconds (Int).  Python truthiness of
optional strings is modelled explicitly.  The Python enum
ReminderStatusEnum is modelled with exactly the members declared in
models.py; attribute access on the enum class is modelled as a partial
lookup from member names, so that accessing a missing member (CANCELED,
ERROR) yields an AttributeError, as in Python.  The Celery task
machinery is modelled by an explicit retries counter and by the fact,
from the Celery exception hierarchy, that both Retry and
MaxRetriesExceededError are subclasses of Exception, so a broad
`except Exception` clause catches a raised Retry.
-/

namespace AiLife

/-- ReminderStatusEnum from src/api/app/db/models.py lines 39-42: members
SCHEDULED = "scheduled", SENT = "sent", FAILED = "failed". -/
inductive ReminderStatus
  | scheduled
  | sent
  | failed
deriving DecidableEq, Repr

/-- Python attribute access `ReminderStatusEnum.<name>`: returns the member
when it exists and none (an AttributeError in Python) otherwise.  The
members are exactly those declared in models.py. -/
def reminderStatusMember : String → Option ReminderStatus
  | "SCHEDULED" => some ReminderStatus.scheduled
  | "SENT" => some ReminderStatus.sent
  | "FAILED" => some ReminderStatus.failed
  | _ => none

/-- Python `.value` of a ReminderStatusEnum member. -/
def ReminderStatus.value : ReminderStatus → String
  | ReminderStatus.scheduled => "scheduled"
  | ReminderStatus.sent => "sent"
  | ReminderStatus.failed => "failed"

/-- User row (src/api/app/db/models.py): the fields the delivery code
reads.  `email` is a non-nullable string column; `push_token` is
nullable. -/
structure User where
  id : Nat
  email : String
  push_token : Option String
deriving DecidableEq, Repr

/-- Reminder row: columns from models.py plus the audit columns
(`utc_ts`, `correlation_id`) added by alembic migration
20241016_07_add_reminder_audit_fields and used throughout
src/api/app/tasks/reminders.py. -/
structure Reminder where
  id : Nat
  user_id : Nat
  text : String
  status : ReminderStatus
  run_ts : Option Int
  utc_ts : Option Int
  last_attempt_at : Option Int
  sent_at : Option Int
  correlation_id : Option String
deriving DecidableEq, Repr

/-- The settings fields consulted by the notification channels
(src/api/app/settings.py usage in reminders.py). -/
structure Settings where
  resend_api_key : Option String
  resend_from_email : Option String
  expo_access_token : Option String
deriving DecidableEq, Repr

/-- Python truthiness of an optional string: None and "" are falsy. -/
def optTruthy : Option String → Bool
  | none => false
  | some s => s != ""

/-- Notification channels available to dispatch_notifications. -/
inductive Channel
  | email
  | push
deriving DecidableEq, Repr

/-- send_email_notification (reminders.py lines 47-82): returns False when
the Resend configuration or the user email is missing, otherwise the
outcome of the HTTP call (status < 300), supplied here as `httpOk`. -/
def send_email_notification (st : Settings) (u : User) (httpOk : Bool) : Bool :=
  if optTruthy st.resend_api_key = false || optTruthy st.resend_from_email = false then false
  else if u.email == "" then false
  else httpOk

/-- send_push_notification (reminders.py lines 85-116): returns False when
the Expo token or the user push token is missing, otherwise the outcome
of the HTTP call. -/
def send_push_notification (st : Settings) (u : User) (httpOk : Bool) : Bool :=
  if optTruthy st.expo_access_token = false then false
  else if optTruthy u.push_token = false then false
  else httpOk

/-- email_possible from dispatch_notifications (reminders.py line 138). -/
def email_possible (st : Settings) (u : User) : Bool :=
  optTruthy st.resend_api_key && optTruthy st.resend_from_email && (u.email != "")

/-- push_possible from dispatch_notifications (reminders.py line 139). -/
def push_possible (st : Settings) (u : User) : Bool :=
  optTruthy st.expo_access_token && optTruthy u.push_token

/-- Result of dispatch_notifications: the aggregate boolean and the list
of channels on which a send was actually attempted. -/
structure DispatchResult where
  ok : Bool
  attempted : List Channel
deriving DecidableEq, Repr

/-- dispatch_notifications (reminders.py lines 130-151).  `flag` is the
value of FEATURE_FLAGS.is_enabled("multi_channel_notifications");
`eOk` / `pOk` are the HTTP outcomes of the two channels. -/
def dispatch_notifications (flag : Bool) (st : Settings) (u : User)
    (eOk pOk : Bool) : DispatchResult :=
  if flag = false then { ok := true, attempted := [] }
  else
    let attempts : List Bool :=
      (if email_possible st u then [send_email_notification st u eOk] else []) ++
      (if push_possible st u then [send_push_notification st u pOk] else [])
    let attempted : List Channel :=
      (if email_possible st u then [Channel.email] else []) ++
      (if push_possible st u then [Channel.push] else [])
    if attempts.isEmpty then { ok := false, attempted := attempted }
    else { ok := attempts.any id, attempted := attempted }

/-- Result of attempt_delivery: the updated reminder (or a raised
RuntimeError), the recorded latencies and counters, and the channels
attempted. -/
structure AttemptResult where
  outcome : Except Unit Reminder
  latencies : List Int
  counters : List String
  channels : List Channel
deriving Repr

/-- attempt_delivery (reminders.py lines 154-175): stamps
last_attempt_at, dispatches, raises RuntimeError when no channel
succeeded, otherwise marks SENT, stamps sent_at, records the latency
max(now - utc_ts, 0) (0 when utc_ts is absent) and increments the
reminder_sent counter. -/
def attempt_delivery (flag : Bool) (st : Settings) (u : User) (r : Reminder)
    (now : Int) (eOk pOk : Bool) : AttemptResult :=
  let r1 : Reminder := { r with last_attempt_at := some now }
  let d := dispatch_notifications flag st u eOk pOk
  if d.ok = false then
    { outcome := Except.error (), latencies := [], counters := [], channels := d.attempted }
  else
    let latency : Int := match r1.utc_ts with
      | some t => max (now - t) 0
      | none => 0
    { outcome := Except.ok { r1 with status := ReminderStatus.sent, sent_at := some now },
      latencies := [latency], counters := ["reminder_sent"], channels := d.attempted }

/-- FailedJob dead-letter row (_record_failed_job, reminders.py lines
119-127): job name, reminder id from the payload, error, attempts. -/
structure FailedJob where
  job_name : String
  reminder_id : Nat
  error_message : String
  attempts : Nat
deriving DecidableEq, Repr

/-- MAX_RETRIES constant (reminders.py line 25). -/
def MAX_RETRIES : Nat := 5

/-- Backoff formula of the generic failure handler (reminders.py line
353): min(60 * 2 ** retries, 3600). -/
def backoff (k : Nat) : Nat := min (60 * 2 ^ k) 3600

/-- Python exceptions relevant to deliver_reminder.  In Celery both
Retry and MaxRetriesExceededError derive from Exception, so a broad
`except Exception` catches a raised Retry. -/
inductive PyError
  | attributeError
  | runtimeError
  | retryExc (countdown : Nat)
  | maxRetriesExceeded
deriving DecidableEq, Repr

/-- Display of an exception for the dead-letter error_message. -/
def PyError.text : PyError → String
  | PyError.attributeError => "AttributeError"
  | PyError.runtimeError => "RuntimeError"
  | PyError.retryExc _ => "Retry"
  | PyError.maxRetriesExceeded => "MaxRetriesExceededError"

/-- Celery Task.retry with bound max_retries = 5 (task decorator,
reminders.py line 219): raises MaxRetriesExceededError when the retry
budget is exhausted, otherwise raises Retry with the given countdown. -/
def taskRetry (retries countdown : Nat) : PyError :=
  if retries + 1 > MAX_RETRIES then PyError.maxRetriesExceeded
  else PyError.retryExc countdown

/-- Observable effects of one deliver_reminder invocation: the committed
reminder row at the end, the dead-letter rows written, the metric
latencies and counters recorded, and the channels attempted. -/
structure WorkerEffects where
  committed : Option Reminder
  deadLetters : List FailedJob
  latencies : List Int
  counters : List String
  channels : List Channel
deriving DecidableEq, Repr

/-- Result of one deliver_reminder invocation: `result` is `.ok b` for a
plain return of b, and `.error e` for an exception propagating to the
queue (a propagating Retry is a re-enqueue with its countdown). -/
structure DeliverResult where
  result : Except PyError Bool
  effects : WorkerEffects
deriving Repr

/-- Effects with only a committed row. -/
def noEffects (c : Option Reminder) : WorkerEffects :=
  { committed := c, deadLetters := [], latencies := [], counters := [], channels := [] }

/-- The due-reminder part of the deliver_reminder try block (reminders.py
lines 279-287): load the user, raise RuntimeError when absent, attempt
delivery and commit on success. -/
def deliverDue (flag : Bool) (st : Settings) (r : Reminder) (userOpt : Option User)
    (now : Int) (eOk pOk : Bool) : DeliverResult :=
  match userOpt with
  | none => { result := Except.error PyError.runtimeError, effects := noEffects (some r) }
  | some u =>
      let a := attempt_delivery flag st u r now eOk pOk
      match a.outcome with
      | Except.error _ =>
          { result := Except.error PyError.runtimeError,
            effects := { noEffects (some r) with channels := a.channels } }
      | Except.ok r2 =>
          { result := Except.ok true,
            effects := { committed := some r2, deadLetters := [], latencies := a.latencies,
                         counters := a.counters, channels := a.channels } }

/-- The try block of deliver_reminder (reminders.py lines 235-287).
A missing reminder returns False.  A non-SCHEDULED status enters the
branch comparing against ReminderStatusEnum.CANCELED and
ReminderStatusEnum.ERROR: the attribute accesses are the partial member
lookups, raising AttributeError when the member does not exist.  A
future target time commits and calls self.retry with the remaining wait
floored at 60 seconds. -/
def deliverBody (flag : Bool) (st : Settings) (remOpt : Option Reminder)
    (userOpt : Option User) (retries : Nat) (now : Int) (eOk pOk : Bool) : DeliverResult :=
  match remOpt with
  | none => { result := Except.ok false, effects := noEffects none }
  | some r =>
      if r.status ≠ ReminderStatus.scheduled then
        match reminderStatusMember "CANCELED" with
        | none => { result := Except.error PyError.attributeError, effects := noEffects (some r) }
        | some canceled =>
            if r.status = canceled then
              { result := Except.ok true,
                effects := { noEffects (some r) with counters := ["reminder_canceled"] } }
            else
              match reminderStatusMember "ERROR" with
              | none =>
                  { result := Except.error PyError.attributeError, effects := noEffects (some r) }
              | some _ => { result := Except.ok true, effects := noEffects (some r) }
      else
        let target : Option Int := match r.utc_ts with
          | some t => some t
          | none => r.run_ts
        match target with
        | some t =>
            if t > now then
              { result := Except.error (taskRetry retries (max (t - now).toNat 60)),
                effects := noEffects (some r) }
            else deliverDue flag st r userOpt now eOk pOk
        | none => deliverDue flag st r userOpt now eOk pOk

/-- deliver_reminder (reminders.py lines 219-381): the try block and its
two exception handlers.  The MaxRetriesExceededError handler and the
attempts >= MAX_RETRIES arm of the generic handler both evaluate
ReminderStatusEnum.ERROR, a partial member lookup.  All other body
exceptions (RuntimeError, AttributeError, and also Retry, which is an
Exception subclass in Celery) fall into the generic handler: below the
ceiling it stamps last_attempt_at, commits, and re-raises self.retry
with the exponential backoff countdown. -/
def deliver_reminder (rid : Nat) (flag : Bool) (st : Settings) (remOpt : Option Reminder)
    (userOpt : Option User) (retries : Nat) (now : Int) (eOk pOk : Bool) : DeliverResult :=
  let body := deliverBody flag st remOpt userOpt retries now eOk pOk
  match body.result with
  | Except.ok _ => body
  | Except.error PyError.maxRetriesExceeded =>
      match remOpt with
      | some r =>
          match reminderStatusMember "ERROR" with
          | none =>
              { result := Except.error PyError.attributeError,
                effects := { body.effects with committed := some r, deadLetters := [] } }
          | some errSt =>
              { result := Except.ok false,
                effects := { body.effects with
                  committed := some { r with status := errSt, last_attempt_at := some now },
                  deadLetters :=
                    [{ job_name := "deliver_reminder", reminder_id := rid,
                       error_message := PyError.text PyError.maxRetriesExceeded,
                       attempts := MAX_RETRIES }],
                  counters := body.effects.counters ++ ["reminder_error"] } }
      | none =>
          match reminderStatusMember "ERROR" with
          | none =>
              { result := Except.error PyError.attributeError,
                effects := { body.effects with
                  deadLetters :=
                    [{ job_name := "deliver_reminder", reminder_id := rid,
                       error_message := PyError.text PyError.maxRetriesExceeded,
                       attempts := MAX_RETRIES }] } }
          | some _ =>
              { result := Except.ok false,
                effects := { body.effects with
                  deadLetters :=
                    [{ job_name := "deliver_reminder", reminder_id := rid,
                       error_message := PyError.text PyError.maxRetriesExceeded,
                       attempts := MAX_RETRIES }],
                  counters := body.effects.counters ++ ["reminder_error"] } }
  | Except.error e =>
      let attempts := retries + 1
      if MAX_RETRIES ≤ attempts then
        match remOpt with
        | some r =>
            match reminderStatusMember "ERROR" with
            | none =>
                { result := Except.error PyError.attributeError,
                  effects := { body.effects with committed := some r, deadLetters := [] } }
            | some errSt =>
                { result := Except.ok false,
                  effects := { body.effects with
                    committed := some { r with status := errSt, last_attempt_at := some now },
                    deadLetters :=
                      [{ job_name := "deliver_reminder", reminder_id := rid,
                         error_message := PyError.text e, attempts := attempts }],
                    counters := body.effects.counters ++ ["reminder_error"] } }
        | none =>
            match reminderStatusMember "ERROR" with
            | none =>
                { result := Except.error PyError.attributeError,
                  effects := { body.effects with
                    deadLetters :=
                      [{ job_name := "deliver_reminder", reminder_id := rid,
                         error_message := PyError.text e, attempts := attempts }] } }
            | some _ =>
                { result := Except.ok false,
                  effects := { body.effects with
                    deadLetters :=
                      [{ job_name := "deliver_reminder", reminder_id := rid,
                         error_message := PyError.text e, attempts := attempts }],
                    counters := body.effects.counters ++ ["reminder_error"] } }
      else
        let committed := match remOpt with
          | some r => some { r with last_attempt_at := some now }
          | none => none
        { result := Except.error (taskRetry retries (backoff retries)),
          effects := { body.effects with committed := committed } }

/-- The scanner selection predicate (schedule_due_reminders, reminders.py
lines 186-191): status == SCHEDULED and utc_ts <= current_time (a NULL
utc_ts satisfies no SQL comparison). -/
def isDue (now : Int) (r : Reminder) : Bool :=
  decide (r.status = ReminderStatus.scheduled) &&
    (match r.utc_ts with
     | some t => decide (t ≤ now)
     | none => false)

/-- The correlation id a claimed reminder carries after the scan loop:
the existing one when truthy, otherwise the freshly generated uuid. -/
def effectiveCid (fresh : String) (r : Reminder) : String :=
  match r.correlation_id with
  | some c => if c = "" then fresh else c
  | none => fresh

/-- The per-reminder update of the scan loop (reminders.py lines
192-196): assign a correlation id when absent and stamp
last_attempt_at. -/
def claim_update (now : Int) (fresh : String) (r : Reminder) : Reminder :=
  { r with correlation_id := some (effectiveCid fresh r),
           last_attempt_at := some now }

/-- The scan loop of schedule_due_reminders: walk the reminder rows,
update each due one and enqueue one deliver_reminder invocation for it,
carrying its id and correlation id.  `fresh i` is the uuid generated
for the i-th row when it needs one. -/
def scanLoop (now : Int) (fresh : Nat → String) : Nat → List Reminder → List Reminder × List (Nat × String)
  | _, [] => ([], [])
  | i, r :: rest =>
      let tail := scanLoop now fresh (i + 1) rest
      if isDue now r then
        let r2 := claim_update now (fresh i) r
        (r2 :: tail.1, (r2.id, effectiveCid (fresh i) r) :: tail.2)
      else
        (r :: tail.1, tail.2)

/-- schedule_due_reminders (reminders.py lines 177-205): returns the
updated table and the enqueued (reminder id, correlation id) pairs. -/
def schedule_due_reminders (now : Int) (fresh : Nat → String) (db : List Reminder) :
    List Reminder × List (Nat × String) :=
  scanLoop now fresh 0 db

/-- send_due_reminders (reminders.py lines 208-217): returns the number
of reminders queued for delivery. -/
def send_due_reminders (now : Int) (fresh : Nat → String) (db : List Reminder) : Nat :=
  (schedule_due_reminders now fresh db).2.length

/-- BOOL_TRUE (feature_flags.py line 15). -/
def boolTrueStrings : List String := ["1", "true", "yes", "on"]

/-- FeatureFlagService._env_override (feature_flags.py lines 113-116):
looks up FEATURE_FLAG_<KEY> in the environment and compares the
lowercased value against BOOL_TRUE. -/
def env_override (env : List (String × String)) (key : String) : Option Bool :=
  match env.lookup ("FEATURE_FLAG_" ++ key.toUpper) with
  | some v => some (boolTrueStrings.contains v.toLower)
  | none => none

/-- FeatureFlagService._load_flag (feature_flags.py lines 108-111):
bool(record.enabled) when a row exists, otherwise False. -/
def load_flag (flags : List (String × Bool)) (key : String) : Bool :=
  (flags.lookup key).getD false

/-- FeatureFlagService.is_enabled (feature_flags.py lines 27-44): an env
override wins; otherwise a fresh cache entry is used; otherwise the
stored flag is loaded (False when absent). -/
def is_enabled (env : List (String × String)) (flags : List (String × Bool))
    (cache : List (String × (Bool × Int))) (ttl now : Int) (key : String) : Bool :=
  match env_override env key with
  | some b => b
  | none =>
      match cache.lookup key with
      | some vt => if now - vt.2 < ttl then vt.1 else load_flag flags key
      | none => load_flag flags key

/-- Concrete settings with only the email channel configured. -/
def stEmail : Settings :=
  { resend_api_key := some "key", resend_from_email := some "noreply@example.com",
    expo_access_token := none }

/-- Concrete user with an email address and no push token. -/
def uEx : User := { id := 7, email := "reminder@example.com", push_token := none }

/-- Concrete due reminder (status SCHEDULED, utc_ts in the past of the
invocation times used below). -/
def rDue : Reminder :=
  { id := 1, user_id := 7, text := "Drink a glass of water.",
    status := ReminderStatus.scheduled, run_ts := some 50, utc_ts := some 50,
    last_attempt_at := none, sent_at := none, correlation_id := some "cid-1" }

/-- Concrete already-sent reminder (a duplicate delivery input). -/
def rSent : Reminder := { rDue with status := ReminderStatus.sent }

/-- Concrete future-dated reminder: utc_ts 180 seconds after the
invocation time 1000 used below. -/
def rFuture : Reminder := { rDue with run_ts := some 1180, utc_ts := some 1180 }

/-- Concrete settings with no channel configured at all. -/
def stNone : Settings :=
  { resend_api_key := none, resend_from_email := none, expo_access_token := none }

/-- Concrete reminder table for the scanner witness: one due reminder,
one already sent, one future-dated, one due without a correlation id. -/
def dbEx : List Reminder :=
  [rDue, rSent, rFuture, { rDue with id := 9, correlation_id := none }]

/-- Property of a claimed row after the scan pass, following the words of
the spec: last_attempt_at is stamped with the scan time, a correlation
id is present and an already-present (truthy) one is kept, and every
other column is untouched. -/
def ClaimedRowSpec (now : Int) (r r2 : Reminder) : Prop :=
  r2.id = r.id ∧ r2.user_id = r.user_id ∧ r2.text = r.text ∧ r2.status = r.status ∧
  r2.run_ts = r.run_ts ∧ r2.utc_ts = r.utc_ts ∧ r2.sent_at = r.sent_at ∧
  r2.last_attempt_at = some now ∧
  (∃ c, r2.correlation_id = some c) ∧
  (optTruthy r.correlation_id = true → r2.correlation_id = r.correlation_id)

/-- Property of an arbitrary row after the scan pass: a due row is
claimed, a non-due row is untouched. -/
def RowSpec (now : Int) (r r2 : Reminder) : Prop :=
  if isDue now r then ClaimedRowSpec now r r2 else r2 = r

/-- Property of an enqueued delivery invocation against the original due
row: it carries that reminder's id, and when the reminder already had a
truthy correlation id, that is the one carried. -/
def EnqOrigSpec (r : Reminder) (e : Nat × String) : Prop :=
  e.1 = r.id ∧ (optTruthy r.correlation_id = true → some e.2 = r.correlation_id)

/-- Property of an enqueued delivery invocation against the claimed row
as stored by the scan pass: it carries exactly that stored row's id and
its stored correlation id — also when the correlation id was freshly
assigned during the pass. -/
def EnqSpec (r2 : Reminder) (e : Nat × String) : Prop :=
  e.1 = r2.id ∧ r2.correlation_id = some e.2

/-- Helper: when the email channel is applicable, send_email_notification
returns exactly the HTTP outcome. -/
theorem send_email_of_possible (st : Settings) (u : User) (x : Bool)
    (h : email_possible st u = true) : send_email_notification st u x = x := by
  simp only [email_possible, Bool.and_eq_true, bne_iff_ne, ne_eq] at h
  obtain ⟨⟨h1, h2⟩, h3⟩ := h
  simp [send_email_notification, h1, h2, h3]

/-- Helper: when the push channel is applicable, send_push_notification
returns exactly the HTTP outcome. -/
theorem send_push_of_possible (st : Settings) (u : User) (x : Bool)
    (h : push_possible st u = true) : send_push_notification st u x = x := by
  simp only [push_possible, Bool.and_eq_true] at h
  obtain ⟨h1, h2⟩ := h
  simp [send_push_notification, h1, h2]

/-- Helper: the aggregate result of dispatch_notifications, as a
disjunction over the applicable channels. -/
theorem dispatch_ok_iff (flag : Bool) (st : Settings) (u : User) (eOk pOk : Bool) :
    (dispatch_notifications flag st u eOk pOk).ok = true ↔
      (flag = false ∨ (email_possible st u = true ∧ eOk = true) ∨
        (push_possible st u = true ∧ pOk = true)) := by
  cases flag with
  | false => simp [dispatch_notifications]
  | true =>
      cases he : email_possible st u <;> cases hp : push_possible st u
      · simp [dispatch_notifications, he, hp]
      · simp [dispatch_notifications, he, hp, send_push_of_possible st u pOk hp]
      · simp [dispatch_notifications, he, hp, send_email_of_possible st u eOk he]
      · simp [dispatch_notifications, he, hp, send_email_of_possible st u eOk he,
              send_push_of_possible st u pOk hp]

/-- Helper: the channels attempted by dispatch_notifications do not
depend on the outcomes of the sends. -/
theorem dispatch_attempted (flag : Bool) (st : Settings) (u : User) (eOk pOk : Bool) :
    (dispatch_notifications flag st u eOk pOk).attempted =
      if flag then
        ((if email_possible st u then [Channel.email] else []) ++
          (if push_possible st u then [Channel.push] else []))
      else [] := by
  cases flag with
  | false => simp [dispatch_notifications]
  | true =>
      cases he : email_possible st u <;> cases hp : push_possible st u <;>
        simp [dispatch_notifications, he, hp]

/-- C3: a deliver_reminder invocation on a reminder id that does not
correspond to an existing reminder row logs and returns normally (a
benign no-op, a Celery success): it raises no error, requests no retry,
writes no dead-letter record, performs no channel call, and leaves the
database unchanged. -/
theorem C3_missing_reminder_noop (rid : Nat) (flag : Bool) (st : Settings)
    (userOpt : Option User) (retries : Nat) (now : Int) (eOk pOk : Bool) :
    deliver_reminder rid flag st none userOpt retries now eOk pOk =
      { result := Except.ok false, effects := noEffects none } := rfl

/-- C1 counter-evidence: on the fifth consecutive channel failure
(retries = 4, so attempts reaches MAX_RETRIES = 5) the worker evaluates
the missing ReminderStatusEnum.ERROR member and raises AttributeError:
the reminder stays SCHEDULED, no dead-letter entry is written, and
nothing is committed, contradicting the claimed ERROR status plus
dead-letter write. -/
theorem C1_max_retries_attribute_error :
    deliver_reminder 1 true stEmail (some rDue) (some uEx) 4 100 false false =
      { result := Except.error PyError.attributeError,
        effects := { committed := some rDue, deadLetters := [], latencies := [],
                     counters := [], channels := [Channel.email] } } := rfl

/-- C2 counter-evidence: an invocation on a reminder whose status is
already SENT (a duplicate delivery) evaluates the missing
ReminderStatusEnum.CANCELED member, raising AttributeError inside the
try block; the broad exception handler then stamps last_attempt_at,
commits it, and re-raises self.retry with a 60 second backoff — instead
of the claimed success return with no side effects. -/
theorem C2_nonscheduled_retries_instead :
    deliver_reminder 1 true stEmail (some rSent) (some uEx) 0 100 true true =
      { result := Except.error (PyError.retryExc 60),
        effects := { committed := some { rSent with last_attempt_at := some 100 },
                     deadLetters := [], latencies := [], counters := [],
                     channels := [] } } := rfl

/-- C8 counter-evidence: on a SCHEDULED reminder whose utc_ts is 180
seconds in the future, deliver_reminder calls self.retry with countdown
max(180, 60) = 180, but the raised Retry is an Exception subclass and
is caught by the broad handler, which re-enqueues with the exponential
backoff countdown 60 instead (and consumes one retry of the budget). -/
theorem C8_future_retry_wrong_countdown :
    deliver_reminder 1 true stEmail (some rFuture) (some uEx) 0 1000 true true =
      { result := Except.error (PyError.retryExc 60),
        effects := { committed := some { rFuture with last_attempt_at := some 1000 },
                     deadLetters := [], latencies := [], counters := [],
                     channels := [] } } ∧
    max ((1180 : Int) - 1000).toNat 60 = 180 := ⟨rfl, rfl⟩

/-- C10: the reminder status type contains exactly the members
SCHEDULED, SENT and FAILED; the member lookups for CANCELED and ERROR
fail (an AttributeError in Python); consequently the try block raises
AttributeError on every non-SCHEDULED reminder, and whenever the
failure handlers run at the retry ceiling on an existing reminder the
assignment of the ERROR status raises AttributeError as well. -/
theorem C10_missing_enum_members :
    (∀ s : ReminderStatus, s = ReminderStatus.scheduled ∨ s = ReminderStatus.sent ∨
      s = ReminderStatus.failed) ∧
    reminderStatusMember "SCHEDULED" = some ReminderStatus.scheduled ∧
    reminderStatusMember "SENT" = some ReminderStatus.sent ∧
    reminderStatusMember "FAILED" = some ReminderStatus.failed ∧
    reminderStatusMember "CANCELED" = none ∧
    reminderStatusMember "ERROR" = none ∧
    (∀ flag st (r : Reminder) userOpt retries now eOk pOk,
      r.status ≠ ReminderStatus.scheduled →
      (deliverBody flag st (some r) userOpt retries now eOk pOk).result =
        Except.error PyError.attributeError) ∧
    (∀ rid flag st (r : Reminder) userOpt retries now eOk pOk e,
      MAX_RETRIES ≤ retries + 1 →
      (deliverBody flag st (some r) userOpt retries now eOk pOk).result = Except.error e →
      (deliver_reminder rid flag st (some r) userOpt retries now eOk pOk).result =
        Except.error PyError.attributeError) := by
  refine ⟨?_, rfl, rfl, rfl, rfl, rfl, ?_, ?_⟩
  · intro s; cases s <;> simp
  · intro flag st r userOpt retries now eOk pOk hne
    simp only [deliverBody]
    rw [if_pos hne]
    rfl
  · intro rid flag st r userOpt retries now eOk pOk e hge hb
    simp only [deliver_reminder]
    rw [hb]
    cases e <;> simp [reminderStatusMember, if_pos hge, hge]

/-- Witness for C10: concrete instances of its two conditional parts, a
duplicate-delivery reminder and a fifth consecutive failure. -/
theorem C10_missing_enum_members_witness :
    (deliverBody true stEmail (some rSent) (some uEx) 0 100 true true).result =
        Except.error PyError.attributeError ∧
    (deliver_reminder 1 true stEmail (some rDue) (some uEx) 4 100 false false).result =
        Except.error PyError.attributeError :=
  ⟨C10_missing_enum_members.2.2.2.2.2.2.1 true stEmail rSent (some uEx) 0 100 true true
      (by decide),
   C10_missing_enum_members.2.2.2.2.2.2.2 1 true stEmail rDue (some uEx) 4 100 false false
      PyError.runtimeError (by decide) rfl⟩

/-- C6: dispatch_notifications succeeds exactly when the multi-channel
feature flag is disabled or at least one applicable channel send
succeeds; with the flag enabled and zero applicable channels the result
is failure; each applicable channel is attempted whatever the outcomes
are, so one channel failing never prevents the other from being
attempted. -/
theorem C6_dispatch_contract (flag : Bool) (st : Settings) (u : User) (eOk pOk : Bool) :
    ((dispatch_notifications flag st u eOk pOk).ok = true ↔
      (flag = false ∨ (email_possible st u = true ∧ eOk = true) ∨
        (push_possible st u = true ∧ pOk = true))) ∧
    (flag = true → email_possible st u = false → push_possible st u = false →
      (dispatch_notifications flag st u eOk pOk).ok = false) ∧
    (flag = true → email_possible st u = true →
      Channel.email ∈ (dispatch_notifications flag st u eOk pOk).attempted) ∧
    (flag = true → push_possible st u = true →
      Channel.push ∈ (dispatch_notifications flag st u eOk pOk).attempted) ∧
    (∀ eOk2 pOk2, (dispatch_notifications flag st u eOk pOk).attempted =
      (dispatch_notifications flag st u eOk2 pOk2).attempted) := by
  refine ⟨dispatch_ok_iff flag st u eOk pOk, ?_, ?_, ?_, ?_⟩
  · intro hf he hp
    simp [dispatch_notifications, hf, he, hp]
  · intro hf he
    rw [dispatch_attempted, if_pos hf, if_pos he]
    simp
  · intro hf hp
    rw [dispatch_attempted, if_pos hf, if_pos hp]
    simp
  · intro eOk2 pOk2
    rw [dispatch_attempted, dispatch_attempted]

/-- Witness for C6: with only email configured and both sends failing
the aggregate is failure but email was attempted; with nothing
configured the aggregate is failure. -/
theorem C6_dispatch_contract_witness :
    (dispatch_notifications true stNone uEx true true).ok = false ∧
    Channel.email ∈ (dispatch_notifications true stEmail uEx false false).attempted :=
  ⟨(C6_dispatch_contract true stNone uEx true true).2.1 rfl rfl rfl,
   (C6_dispatch_contract true stEmail uEx false false).2.2.1 rfl rfl⟩

/-- C5: for a reminder with a populated utc_ts for which at least one
applicable channel send succeeds, attempt_delivery marks the reminder
SENT, stamps sent_at = now, increments the reminder_sent counter, and
records the latency max(now - utc_ts, 0), i.e. sent_at minus utc_ts
clamped to be nonnegative. -/
theorem C5_success_marks_sent (st : Settings) (u : User) (r : Reminder)
    (now t : Int) (eOk pOk : Bool)
    (hts : r.utc_ts = some t)
    (hch : ((email_possible st u && eOk) || (push_possible st u && pOk)) = true) :
    ∃ r2, (attempt_delivery true st u r now eOk pOk).outcome = Except.ok r2 ∧
      r2.status = ReminderStatus.sent ∧ r2.sent_at = some now ∧
      r2.last_attempt_at = some now ∧
      (attempt_delivery true st u r now eOk pOk).counters = ["reminder_sent"] ∧
      (attempt_delivery true st u r now eOk pOk).latencies = [max (now - t) 0] ∧
      0 ≤ max (now - t) 0 := by
  have hok : (dispatch_notifications true st u eOk pOk).ok = true := by
    rw [dispatch_ok_iff]
    simp only [Bool.or_eq_true, Bool.and_eq_true] at hch
    rcases hch with ⟨h1, h2⟩ | ⟨h1, h2⟩
    · exact Or.inr (Or.inl ⟨h1, h2⟩)
    · exact Or.inr (Or.inr ⟨h1, h2⟩)
  refine Exists.intro
    { r with last_attempt_at := some now, status := ReminderStatus.sent, sent_at := some now }
    ⟨?_, rfl, rfl, rfl, ?_, ?_, le_max_right _ _⟩
  · simp only [attempt_delivery, hok]
    simp
  · simp only [attempt_delivery, hok]
    simp
  · simp only [attempt_delivery, hok]
    simp [hts]

/-- Witness for C5: a concrete due reminder delivered over the email
channel at time 100 with utc_ts 50. -/
theorem C5_success_marks_sent_witness :
    ∃ r2, (attempt_delivery true stEmail uEx rDue 100 true true).outcome = Except.ok r2 ∧
      r2.status = ReminderStatus.sent ∧ r2.sent_at = some 100 ∧
      r2.last_attempt_at = some 100 ∧
      (attempt_delivery true stEmail uEx rDue 100 true true).counters = ["reminder_sent"] ∧
      (attempt_delivery true stEmail uEx rDue 100 true true).latencies =
        [max ((100 : Int) - 50) 0] ∧
      0 ≤ max ((100 : Int) - 50) 0 :=
  C5_success_marks_sent stEmail uEx rDue 100 50 true true rfl (by decide)

/-- C7: every re-enqueue countdown emitted by deliver_reminder equals
backoff(retries) = min(60 * 2 ^ retries, 3600) seconds, and the backoff
sequence over consecutive failures is non-decreasing and capped at 3600
seconds. -/
theorem C7_backoff_schedule (rid : Nat) (flag : Bool) (st : Settings)
    (remOpt : Option Reminder) (userOpt : Option User) (retries : Nat) (now : Int)
    (eOk pOk : Bool) :
    (∀ c : Nat,
      (deliver_reminder rid flag st remOpt userOpt retries now eOk pOk).result =
          Except.error (PyError.retryExc c) →
      c = backoff retries) ∧
    (∀ k, backoff k ≤ backoff (k + 1)) ∧
    (∀ k, backoff k ≤ 3600) ∧
    backoff retries = min (60 * 2 ^ retries) 3600 := by
  refine ⟨?_, ?_, ?_, rfl⟩
  · intro c h
    simp only [deliver_reminder] at h
    split at h
    · rename_i b heq
      rw [heq] at h
      exact absurd h (by simp)
    · rcases remOpt with _ | r
      · rcases hm : reminderStatusMember "ERROR" with _ | v
        · rw [hm] at h; exact absurd h (by simp)
        · exact absurd hm (by simp [reminderStatusMember])
      · rcases hm : reminderStatusMember "ERROR" with _ | v
        · rw [hm] at h; exact absurd h (by simp)
        · exact absurd hm (by simp [reminderStatusMember])
    · rename_i e heq
      by_cases hge : MAX_RETRIES ≤ retries + 1
      · rw [if_pos hge] at h
        rcases remOpt with _ | r
        · rcases hm : reminderStatusMember "ERROR" with _ | v
          · rw [hm] at h; exact absurd h (by simp)
          · exact absurd hm (by simp [reminderStatusMember])
        · rcases hm : reminderStatusMember "ERROR" with _ | v
          · rw [hm] at h; exact absurd h (by simp)
          · exact absurd hm (by simp [reminderStatusMember])
      · rw [if_neg hge] at h
        have hlt : retries + 1 < 5 := by
          have hx := Nat.lt_of_not_le hge
          simpa [MAX_RETRIES] using hx
        simp only [taskRetry, MAX_RETRIES] at h
        rw [if_neg (by omega)] at h
        simp at h
        exact h.symm
  · intro k
    unfold backoff
    exact min_le_min
      (Nat.mul_le_mul_left 60 (Nat.pow_le_pow_right (by norm_num) (Nat.le_succ k)))
      (le_refl 3600)
  · intro k
    exact min_le_right _ _

/-- Witness for C7: the first re-enqueue after a duplicate-delivery
failure has countdown backoff(0) = 60. -/
theorem C7_backoff_schedule_witness :
    60 = backoff 0 ∧ backoff 0 ≤ backoff 1 ∧ backoff 0 ≤ 3600 :=
  ⟨(C7_backoff_schedule 1 true stEmail (some rSent) (some uEx) 0 100 true true).1 60 rfl,
   (C7_backoff_schedule 1 true stEmail (some rSent) (some uEx) 0 100 true true).2.1 0,
   (C7_backoff_schedule 1 true stEmail (some rSent) (some uEx) 0 100 true true).2.2.1 0⟩

/-- C9: with no environment override, no cache entry and no stored flag
row, is_enabled("multi_channel_notifications") is false, so
dispatch_notifications is a no-op success attempting zero channels, and
attempt_delivery consequently marks a due reminder SENT although no
notification was sent. -/
theorem C9_flags_default_off (env : List (String × String)) (flags : List (String × Bool))
    (cache : List (String × (Bool × Int))) (ttl tnow : Int) (st : Settings) (u : User)
    (r : Reminder) (dnow : Int) (eOk pOk : Bool)
    (henv : env_override env "multi_channel_notifications" = none)
    (hcache : cache.lookup "multi_channel_notifications" = none)
    (hflags : flags.lookup "multi_channel_notifications" = none) :
    is_enabled env flags cache ttl tnow "multi_channel_notifications" = false ∧
    dispatch_notifications (is_enabled env flags cache ttl tnow "multi_channel_notifications")
        st u eOk pOk = { ok := true, attempted := [] } ∧
    (attempt_delivery (is_enabled env flags cache ttl tnow "multi_channel_notifications")
        st u r dnow eOk pOk).outcome =
      Except.ok { r with
        last_attempt_at := some dnow, status := ReminderStatus.sent,
        sent_at := some dnow } ∧
    (attempt_delivery (is_enabled env flags cache ttl tnow "multi_channel_notifications")
        st u r dnow eOk pOk).channels = [] := by
  have h0 : is_enabled env flags cache ttl tnow "multi_channel_notifications" = false := by
    simp [is_enabled, henv, hcache, load_flag, hflags]
  rw [h0]
  refine ⟨rfl, rfl, ?_, ?_⟩
  · simp [attempt_delivery, dispatch_notifications]
  · simp [attempt_delivery, dispatch_notifications]

/-- Witness for C9: an entirely unconfigured deployment (empty
environment, no flag rows, cold cache) and a concrete due reminder. -/
theorem C9_flags_default_off_witness :
    is_enabled [] [] [] 30 0 "multi_channel_notifications" = false ∧
    dispatch_notifications (is_enabled [] [] [] 30 0 "multi_channel_notifications")
        stNone uEx true true = { ok := true, attempted := [] } ∧
    (attempt_delivery (is_enabled [] [] [] 30 0 "multi_channel_notifications")
        stNone uEx rDue 100 true true).outcome =
      Except.ok { rDue with
        last_attempt_at := some 100, status := ReminderStatus.sent,
        sent_at := some 100 } ∧
    (attempt_delivery (is_enabled [] [] [] 30 0 "multi_channel_notifications")
        stNone uEx rDue 100 true true).channels = [] :=
  C9_flags_default_off [] [] [] 30 0 stNone uEx rDue 100 true true rfl rfl rfl

/-- Helper: the scanner selection predicate agrees with the words of the
spec: status SCHEDULED and a populated utc_ts at or before now. -/
theorem isDue_iff (now : Int) (r : Reminder) :
    isDue now r = true ↔
      (r.status = ReminderStatus.scheduled ∧ ∃ t, r.utc_ts = some t ∧ t ≤ now) := by
  unfold isDue
  cases hu : r.utc_ts <;> simp [hu, Bool.and_eq_true]

/-- Helper: a truthy correlation id survives the scan update. -/
theorem effectiveCid_of_truthy (fresh : String) (r : Reminder)
    (h : optTruthy r.correlation_id = true) :
    some (effectiveCid fresh r) = r.correlation_id := by
  cases hc : r.correlation_id with
  | none => rw [hc] at h; simp [optTruthy] at h
  | some c =>
      rw [hc] at h
      simp only [optTruthy, bne_iff_ne, ne_eq] at h
      simp [effectiveCid, hc, h]

/-- Helper: each row of the table after the scan loop satisfies
RowSpec against its original row. -/
theorem scanLoop_rows (now : Int) (fresh : Nat → String) :
    ∀ (db : List Reminder) (i : Nat),
      List.Forall₂ (RowSpec now) db (scanLoop now fresh i db).1 := by
  intro db
  induction db with
  | nil => intro i; exact List.Forall₂.nil
  | cons r rest ih =>
      intro i
      by_cases hd : isDue now r = true
      · have hs : (scanLoop now fresh i (r :: rest)).1 =
            claim_update now (fresh i) r :: (scanLoop now fresh (i + 1) rest).1 := by
          simp [scanLoop, hd]
        rw [hs]
        refine List.Forall₂.cons ?_ (ih (i + 1))
        unfold RowSpec
        rw [if_pos hd]
        refine ⟨rfl, rfl, rfl, rfl, rfl, rfl, rfl, rfl, ⟨effectiveCid (fresh i) r, rfl⟩, ?_⟩
        intro ht
        exact effectiveCid_of_truthy (fresh i) r ht
      · have hs : (scanLoop now fresh i (r :: rest)).1 =
            r :: (scanLoop now fresh (i + 1) rest).1 := by
          simp [scanLoop, hd]
        rw [hs]
        refine List.Forall₂.cons ?_ (ih (i + 1))
        unfold RowSpec
        rw [if_neg hd]

/-- Helper: the enqueued invocations of the scan loop correspond one to
one, in order, to the original due rows of the table. -/
theorem scanLoop_enq (now : Int) (fresh : Nat → String) :
    ∀ (db : List Reminder) (i : Nat),
      List.Forall₂ EnqOrigSpec (db.filter (isDue now)) (scanLoop now fresh i db).2 := by
  intro db
  induction db with
  | nil => intro i; exact List.Forall₂.nil
  | cons r rest ih =>
      intro i
      by_cases hd : isDue now r = true
      · have hs : (scanLoop now fresh i (r :: rest)).2 =
            ((claim_update now (fresh i) r).id, effectiveCid (fresh i) r) ::
              (scanLoop now fresh (i + 1) rest).2 := by
          simp [scanLoop, hd]
        rw [hs, List.filter_cons_of_pos hd]
        refine List.Forall₂.cons ⟨rfl, ?_⟩ (ih (i + 1))
        intro ht
        exact effectiveCid_of_truthy (fresh i) r ht
      · have hs : (scanLoop now fresh i (r :: rest)).2 =
            (scanLoop now fresh (i + 1) rest).2 := by
          simp [scanLoop, hd]
        rw [hs, List.filter_cons_of_neg (by simpa using hd)]
        exact ih (i + 1)

/-- Helper: the claim update touches neither the status nor utc_ts, so
it does not change due-ness. -/
theorem isDue_claim_update (now now2 : Int) (fresh : String) (r : Reminder) :
    isDue now (claim_update now2 fresh r) = isDue now r := rfl

/-- Helper: the enqueued invocations of the scan loop correspond one to
one, in order, to the claimed rows as stored, each carrying that stored
row's id and stored correlation id. -/
theorem scanLoop_enq_stored (now : Int) (fresh : Nat → String) :
    ∀ (db : List Reminder) (i : Nat),
      List.Forall₂ EnqSpec ((scanLoop now fresh i db).1.filter (isDue now))
        (scanLoop now fresh i db).2 := by
  intro db
  induction db with
  | nil => intro i; exact List.Forall₂.nil
  | cons r rest ih =>
      intro i
      by_cases hd : isDue now r = true
      · have hs1 : (scanLoop now fresh i (r :: rest)).1 =
            claim_update now (fresh i) r :: (scanLoop now fresh (i + 1) rest).1 := by
          simp [scanLoop, hd]
        have hs2 : (scanLoop now fresh i (r :: rest)).2 =
            ((claim_update now (fresh i) r).id, effectiveCid (fresh i) r) ::
              (scanLoop now fresh (i + 1) rest).2 := by
          simp [scanLoop, hd]
        have hdu : isDue now (claim_update now (fresh i) r) = true := by
          rw [isDue_claim_update]; exact hd
        rw [hs1, hs2, List.filter_cons_of_pos hdu]
        exact List.Forall₂.cons ⟨rfl, rfl⟩ (ih (i + 1))
      · have hs1 : (scanLoop now fresh i (r :: rest)).1 =
            r :: (scanLoop now fresh (i + 1) rest).1 := by
          simp [scanLoop, hd]
        have hs2 : (scanLoop now fresh i (r :: rest)).2 =
            (scanLoop now fresh (i + 1) rest).2 := by
          simp [scanLoop, hd]
        rw [hs1, hs2, List.filter_cons_of_neg (by simpa using hd)]
        exact ih (i + 1)

/-- C4: the scan pass claims exactly the reminders with status SCHEDULED
and utc_ts at or before now; each claimed row gets last_attempt_at
stamped with the scan time and a correlation id when absent, with every
other column untouched and non-due rows unchanged; exactly one delivery
invocation is enqueued per claimed reminder, carrying its id and its
stored correlation id (the pre-existing one when it was present, the
freshly assigned one otherwise); and send_due_reminders returns the
number enqueued. -/
theorem C4_scanner_contract (now : Int) (fresh : Nat → String) (db : List Reminder) :
    (∀ r : Reminder, isDue now r = true ↔
      (r.status = ReminderStatus.scheduled ∧ ∃ t, r.utc_ts = some t ∧ t ≤ now)) ∧
    List.Forall₂ (RowSpec now) db (schedule_due_reminders now fresh db).1 ∧
    List.Forall₂ EnqOrigSpec (db.filter (isDue now)) (schedule_due_reminders now fresh db).2 ∧
    List.Forall₂ EnqSpec ((schedule_due_reminders now fresh db).1.filter (isDue now))
      (schedule_due_reminders now fresh db).2 ∧
    send_due_reminders now fresh db = (db.filter (isDue now)).length :=
  ⟨fun r => isDue_iff now r, scanLoop_rows now fresh db 0, scanLoop_enq now fresh db 0,
   scanLoop_enq_stored now fresh db 0, ((scanLoop_enq now fresh db 0).length_eq).symm⟩

/-- Witness for C4: the concrete four-row table, of which exactly the
two due rows are claimed and enqueued; the second claimed row had no
correlation id and the freshly assigned "3" is both stored on the row
and carried by its enqueued invocation. -/
theorem C4_scanner_contract_witness :
    send_due_reminders 100 (fun i => toString i) dbEx =
      (dbEx.filter (isDue 100)).length ∧
    send_due_reminders 100 (fun i => toString i) dbEx = 2 ∧
    (schedule_due_reminders 100 (fun i => toString i) dbEx).2 = [(1, "cid-1"), (9, "3")] ∧
    ((schedule_due_reminders 100 (fun i => toString i) dbEx).1.filter (isDue 100)).map
        Reminder.correlation_id = [some "cid-1", some "3"] :=
  ⟨(C4_scanner_contract 100 (fun i => toString i) dbEx).2.2.2.2, rfl, rfl, rfl⟩

end AiLife
